import Mathlib

/-!
Shallow embedding of the model-tier routing engine of the
HyperFill/hyperfill-agents repository.

Sources embedded:
  - src/ModelRouter/router.py       (ModelSize, TaskClassification, ModelRouter)
  - src/ModelRouter/crewai_router.py (CrewAIModelRouter and its instance cache)

Python strings become Lean `String`, Python `in` (substring test) becomes an
explicit character-list infix test, Python ints become `Int`/`Nat`, and Python
floats become `ℚ` (every float literal in the source — 0.9, 0.7, 0.6, 0.3,
0.1, 0.05 — and every value computed from them here is exactly representable;
the one caveat, binary rounding of `0.6 + score*0.1`, never changes any
comparison proved below).  Mutation of `self` becomes explicit state passing.
-/

namespace HyperFill

/-- Python substring test `pat in hay` on character lists: true iff `pat`
occurs contiguously inside `hay` (the empty pattern always occurs). -/
def containsSub (hay pat : List Char) : Bool :=
  match hay with
  | [] => pat.isEmpty
  | _ :: t => pat.isPrefixOf hay || containsSub t pat

/-- Python substring test `pat in hay` on strings. -/
def containsSubstr (hay pat : String) : Bool :=
  containsSub hay.toList pat.toList

/-- `class ModelSize(Enum)` from router.py lines 10-12. -/
inductive ModelSize where
  | SMALL
  | LARGE
deriving DecidableEq, Repr

/-- The `.value` of each enum member (router.py lines 11-12). -/
def ModelSize.value : ModelSize → String
  | .SMALL => "groq/llama-3.1-8b-instant"
  | .LARGE => "groq/llama-3.3-70b-versatile"

/-- `@dataclass TaskClassification` from router.py lines 14-20. -/
structure TaskClassification where
  agent_type : String
  task_complexity : String
  requires_reasoning : Bool
  model_size : ModelSize
  confidence : ℚ
deriving DecidableEq, Repr

/-- One entry of `self.agent_rules` (router.py lines 40-61). -/
structure AgentRule where
  default_model : ModelSize
  keywords_70b : List String
  keywords_7b : List String
deriving DecidableEq, Repr

/-- `self.agent_rules` from router.py lines 40-61, as an association list
(Python dict with string keys). -/
def agent_rules : List (String × AgentRule) :=
  [ ("pricer",
      { default_model := .LARGE
        keywords_70b := ["pricing", "calculation", "arbitrage", "profit",
                         "complex", "strategy", "analysis"]
        keywords_7b := ["format", "display", "simple"] }),
    ("market_analyzer",
      { default_model := .SMALL
        keywords_70b := ["analyze", "predict", "complex analysis", "strategy",
                         "reasoning"]
        keywords_7b := ["fetch", "format", "json", "data", "translate",
                        "parse", "convert"] }),
    ("executive",
      { default_model := .SMALL
        keywords_70b := ["strategy", "complex decision", "analyze", "evaluate"]
        keywords_7b := ["coordinate", "delegate", "status", "simple", "route",
                       "manage"] }),
    ("inventory",
      { default_model := .SMALL
        keywords_70b := ["complex analysis", "strategy", "prediction"]
        keywords_7b := ["balance", "update", "check", "simple", "rule",
                       "threshold"] }) ]

/-- `self.complexity_indicators` from router.py lines 64-68. -/
def complexity_indicators : List String :=
  ["analyze complex", "strategic decision", "calculate profit",
   "arbitrage opportunity", "risk assessment", "multi-step reasoning",
   "evaluate strategy", "complex analysis", "advanced calculation"]

/-- `self.simple_indicators` from router.py lines 71-75. -/
def simple_indicators : List String :=
  ["fetch data", "format json", "parse response", "convert format",
   "simple check", "status update", "basic coordination", "rule-based",
   "threshold check", "simple calculation"]

/-- Python `str.lower` on one character.  Every string in the repository is
ASCII, on which lowering the 26 upper-case letters agrees with full Unicode
lowercasing. -/
def lowerChar (c : Char) : Char :=
  if 65 ≤ c.toNat ∧ c.toNat ≤ 90 then Char.ofNat (c.toNat + 32) else c

/-- Python `str.lower`, character by character. -/
def strLower (s : String) : String :=
  ⟨s.data.map lowerChar⟩

/-- Role normalization, router.py line 89:
`agent_type.lower().replace(" ", "_")` — `replace` with a one-character
pattern and replacement acts character by character. -/
def normalizeRole (s : String) : String :=
  ⟨(strLower s).data.map (fun c => if c = ' ' then '_' else c)⟩

/-- Combined search text, router.py line 96:
`f"{task_description} {context or ''}".lower()`. -/
def fullText (task_description : String) (context : Option String) : String :=
  strLower (task_description ++ " " ++ context.getD "")

/-- `self.agent_rules.get(agent_type)`, router.py lines 92 and 114-115. -/
def roleRules (role : String) : Option AgentRule :=
  agent_rules.lookup role

/-- Number of phrases of `phrases` occurring in `full` — each loop in
router.py lines 102-126 adds or subtracts a constant once per phrase found,
so its total contribution is that constant times this count. -/
def countHits (full : String) (phrases : List String) : Nat :=
  phrases.countP (fun p => containsSubstr full p)

/-- Matches of the 70B keywords of the role, router.py lines 118-121
(zero when the role has no entry in the table, line 114). -/
def hits70b (role full : String) : Nat :=
  match roleRules role with
  | some r => countHits full r.keywords_70b
  | none => 0

/-- Matches of the 7B keywords of the role, router.py lines 124-126
(zero when the role has no entry in the table, line 114). -/
def hits7b (role full : String) : Nat :=
  match roleRules role with
  | some r => countHits full r.keywords_7b
  | none => 0

/-- The value of `complexity_score` after the loops of router.py lines
99-126: +2 per global complexity indicator, -1 per global simple indicator,
+1 per role 70B keyword, -1 per role 7B keyword. -/
def complexityScore (role full : String) : Int :=
  2 * (countHits full complexity_indicators : Int)
    - (countHits full simple_indicators : Int)
    + (hits70b role full : Int)
    - (hits7b role full : Int)

/-- The value of `reasoning_required` after router.py lines 100-121: set to
true by any global complexity indicator match or any role 70B keyword match,
never reset. -/
def reasoningRequired (role full : String) : Bool :=
  0 < countHits full complexity_indicators || 0 < hits70b role full

/-- The classification value computed and returned by
`ModelRouter.classify_task` (router.py lines 89-141 and 152-158): the whole
method body except the usage-statistics update of lines 143-150, which is
`trackUsage` below.  This part of the method reads no mutable state. -/
def classify_value (agent_type task_description : String)
    (context : Option String) : TaskClassification :=
  let role := normalizeRole agent_type
  let default_model :=
    match roleRules role with
    | some r => r.default_model
    | none => ModelSize.LARGE
  let full := fullText task_description context
  let score := complexityScore role full
  let reasoning := reasoningRequired role full
  if 1 < score ∨ reasoning = true then
    { agent_type := role, task_complexity := "high",
      requires_reasoning := reasoning, model_size := .LARGE,
      confidence := min (0.9 : ℚ) (0.6 + (score : ℚ) * 0.1) }
  else if score < -1 then
    { agent_type := role, task_complexity := "low",
      requires_reasoning := reasoning, model_size := .SMALL,
      confidence := min (0.9 : ℚ) (0.7 + (score.natAbs : ℚ) * 0.05) }
  else
    { agent_type := role, task_complexity := "medium",
      requires_reasoning := reasoning, model_size := default_model,
      confidence := 0.6 }

/-- `self.usage_stats` dict from router.py lines 32-37. -/
structure UsageStats where
  total_requests : Nat
  small_model_usage : Nat
  large_model_usage : Nat
  token_savings_estimate : ℚ
deriving DecidableEq, Repr

/-- Mutable state of one `ModelRouter` instance: the credential read at
construction (router.py line 29, absent when the environment lacks it)
and the usage counters. -/
structure RouterState where
  groq_key : Option String
  usage_stats : UsageStats
deriving DecidableEq, Repr

/-- The state of a freshly constructed `ModelRouter` (router.py lines
28-37): counters zero, credential as found in the environment. -/
def freshRouter (key : Option String) : RouterState :=
  { groq_key := key,
    usage_stats := { total_requests := 0, small_model_usage := 0,
                     large_model_usage := 0, token_savings_estimate := 0 } }

/-- The usage-statistics update of `classify_task`, router.py lines 143-150:
always increment `total_requests`; increment `small_model_usage` and add 0.7
to `token_savings_estimate` for a SMALL recommendation, else increment
`large_model_usage`. -/
def trackUsage (stats : UsageStats) (m : ModelSize) : UsageStats :=
  let stats := { stats with total_requests := stats.total_requests + 1 }
  match m with
  | .SMALL =>
      { stats with small_model_usage := stats.small_model_usage + 1,
                   token_savings_estimate := stats.token_savings_estimate + 0.7 }
  | .LARGE =>
      { stats with large_model_usage := stats.large_model_usage + 1 }

namespace ModelRouter

/-- `ModelRouter.classify_task` (router.py lines 77-158), with the mutation
of `self.usage_stats` made explicit: returns the classification and the
updated router state. -/
def classify_task (st : RouterState) (agent_type task_description : String)
    (context : Option String) : TaskClassification × RouterState :=
  let c := classify_value agent_type task_description context
  (c, { st with usage_stats := trackUsage st.usage_stats c.model_size })

/-- `config` dict returned by `ModelRouter.get_model_config`
(router.py lines 160-166). -/
structure ModelConfig where
  model : String
  temperature : ℚ
  api_key : Option String
deriving DecidableEq, Repr

/-- `ModelRouter.get_model_config` (router.py lines 160-166).  Note the
method has no failure path: it returns the configuration unconditionally,
with `api_key` whatever `self.groq_key` holds (possibly absent). -/
def get_model_config (st : RouterState) (c : TaskClassification) :
    ModelConfig :=
  { model := c.model_size.value,
    temperature := if c.requires_reasoning then (0.7 : ℚ) else 0.3,
    api_key := st.groq_key }

/-- `ModelRouter.route_request` (router.py lines 168-175). -/
def route_request (st : RouterState) (agent_type task : String)
    (context : Option String) :
    (ModelConfig × TaskClassification) × RouterState :=
  let r := classify_task st agent_type task context
  let config := get_model_config r.2 r.1
  ((config, r.1), r.2)

/-- Report dict of `ModelRouter.get_usage_stats` (router.py lines 188-195). -/
structure UsageReport where
  total_requests : Nat
  small_model_usage : Nat
  large_model_usage : Nat
  small_model_percentage : ℚ
  large_model_percentage : ℚ
  estimated_token_savings : ℚ
deriving DecidableEq, Repr

/-- Python `round(x, 1)`.  Python rounds ties to even; no quantity this
development evaluates `round` on lies at a tie, so round-half-up is an
equivalent model on every value that occurs. -/
def round1 (q : ℚ) : ℚ :=
  (⌊q * 10 + 1/2⌋ : ℚ) / 10

/-- `ModelRouter.get_usage_stats` (router.py lines 177-195). -/
def get_usage_stats (st : RouterState) : UsageReport :=
  let total := st.usage_stats.total_requests
  let small := st.usage_stats.small_model_usage
  let large := st.usage_stats.large_model_usage
  let savings := st.usage_stats.token_savings_estimate
  let small_percentage : ℚ :=
    if 0 < total then (small : ℚ) / (total : ℚ) * 100 else 0
  let large_percentage : ℚ :=
    if 0 < total then (large : ℚ) / (total : ℚ) * 100 else 0
  let avg_savings : ℚ := if 0 < total then savings / (total : ℚ) else 0
  { total_requests := total,
    small_model_usage := small,
    large_model_usage := large,
    small_model_percentage := round1 small_percentage,
    large_model_percentage := round1 large_percentage,
    estimated_token_savings := round1 (avg_savings * 100) }

end ModelRouter

/-- Folds a list of `(agent_type, task, context)` calls through
`route_request`, yielding the final router state. -/
def runRoutes (st : RouterState) :
    List (String × String × Option String) → RouterState
  | [] => st
  | (a, t, c) :: rest =>
      runRoutes (ModelRouter.route_request st a t c).2 rest

/-- First spec scenario routed on a fresh router: market analyzer asked to
fetch and convert data. -/
def scenarioRoute1 : (ModelRouter.ModelConfig × TaskClassification) × RouterState :=
  ModelRouter.route_request (freshRouter none) "market_analyzer"
    "Fetch market data and convert to JSON format" none

/-- Second spec scenario, routed on the state the first call left. -/
def scenarioRoute2 : (ModelRouter.ModelConfig × TaskClassification) × RouterState :=
  ModelRouter.route_request scenarioRoute1.2 "market_analyzer"
    "Perform complex analysis of market trends and predict movements" none

/-- Third spec scenario, routed on the state the second call left. -/
def scenarioRoute3 : (ModelRouter.ModelConfig × TaskClassification) × RouterState :=
  ModelRouter.route_request scenarioRoute2.2 "pricer"
    "Calculate arbitrage opportunity between markets with profit analysis" none

/-- Fourth spec scenario, routed on the state the third call left. -/
def scenarioRoute4 : (ModelRouter.ModelConfig × TaskClassification) × RouterState :=
  ModelRouter.route_request scenarioRoute3.2 "executive"
    "Coordinate task delegation between agents" none

/-- Resource handle built by the external `crewai.LLM` constructor
(crewai_router.py lines 39-43).  The constructor is third-party code; its
handle is modelled as a record of the arguments passed, tagged with an
allocation index `constructed_at` so that two separately constructed
handles are distinguishable (Python object identity). -/
structure LLM where
  constructed_at : Nat
  model : String
  temperature : ℚ
  api_key : Option String
deriving DecidableEq, Repr

/-- Mutable state of one `CrewAIModelRouter` instance (crewai_router.py
lines 12-14): the wrapped `ModelRouter`, the dict `self._llm_cache`
(modelled as an association list in insertion order), and the allocation
counter for handle identity. -/
structure CrewState where
  router : RouterState
  llm_cache : List (String × LLM)
  next_llm_id : Nat
deriving DecidableEq, Repr

/-- A freshly constructed `CrewAIModelRouter` (crewai_router.py lines
12-14): fresh inner router, empty cache. -/
def freshCrew (key : Option String) : CrewState :=
  { router := freshRouter key, llm_cache := [], next_llm_id := 0 }

/-- Python f-string rendering of the temperature inside the cache key
(crewai_router.py line 32).  The only temperatures `get_model_config`
produces are 0.7 and 0.3, which Python renders as shown; the final branch
is unreachable from the adapter. -/
def floatRepr (q : ℚ) : String :=
  if q = 0.7 then "0.7" else if q = 0.3 then "0.3" else "<float>"

namespace CrewAIModelRouter

/-- `CrewAIModelRouter.get_llm_for_agent` (crewai_router.py lines 16-51),
with the cache and counter mutation made explicit.  The `print` on lines
48-49 is console output only and is not modelled. -/
def get_llm_for_agent (st : CrewState) (agent_type task_description : String)
    (context : Option String) : LLM × CrewState :=
  let r := ModelRouter.route_request st.router agent_type task_description context
  let config := r.1.1
  let classification := r.1.2
  let cache_key := classification.model_size.value ++ "_" ++
    floatRepr config.temperature
  match st.llm_cache.lookup cache_key with
  | some llm => (llm, { st with router := r.2 })
  | none =>
      let llm : LLM :=
        { constructed_at := st.next_llm_id, model := config.model,
          temperature := config.temperature, api_key := config.api_key }
      (llm, { router := r.2,
              llm_cache := st.llm_cache ++ [(cache_key, llm)],
              next_llm_id := st.next_llm_id + 1 })

end CrewAIModelRouter

/-- The cache key a `get_llm_for_agent` call with these arguments computes
(crewai_router.py line 32), as a function of the arguments alone: the
classification is `classify_value` of the arguments and the configuration
temperature is determined by its reasoning flag. -/
def callKey (agent_type task : String) (context : Option String) : String :=
  let cl := classify_value agent_type task context
  cl.model_size.value ++ "_" ++
    floatRepr (if cl.requires_reasoning then (0.7 : ℚ) else 0.3)

/-- Folds a list of `(agent_type, task, context)` calls through
`get_llm_for_agent`, yielding the final adapter state.  The per-role
convenience methods of crewai_router.py lines 53-71 each just call
`get_llm_for_agent` with a fixed role, so sequences of them are instances
of this fold. -/
def runCrew (st : CrewState) :
    List (String × String × Option String) → CrewState
  | [] => st
  | (a, t, c) :: rest =>
      runCrew (CrewAIModelRouter.get_llm_for_agent st a t c).2 rest

/-- The four cache keys reachable from the adapter: each tier identifier
combined with temperature 0.3 or 0.7. -/
def allowedKeys : List String :=
  [ModelSize.SMALL.value ++ "_0.3", ModelSize.SMALL.value ++ "_0.7",
   ModelSize.LARGE.value ++ "_0.3", ModelSize.LARGE.value ++ "_0.7"]

/-!  Theorems.  -/

/-- C1 (corrected, counterexample): the spec claims `0 ≤ confidence`, but on
this input the classifier matches one 70B keyword (predict, turning the
reasoning flag on), three simple indicators and all seven market-analyzer
7B keywords, driving the score to -9 and the high-branch confidence
`min(0.9, 0.6 + (-9)*0.1)` to -0.3, which is negative. -/
theorem confidence_can_be_negative :
    (classify_value "market_analyzer"
      "predict fetch data format json translate parse convert simple check"
      none).confidence < 0 := by
  have hs : complexityScore (normalizeRole "market_analyzer")
      (fullText "predict fetch data format json translate parse convert simple check"
        none) = -9 := by decide
  have hr : reasoningRequired (normalizeRole "market_analyzer")
      (fullText "predict fetch data format json translate parse convert simple check"
        none) = true := by decide
  simp only [classify_value, hs, hr, or_true, if_true, if_pos]
  apply min_lt_iff.mpr
  right
  norm_num

/-- C1 (corrected, amended): for every role, task text and optional context,
the confidence of the classification is at most 0.9 (hence strictly below
1.0); the lower bound 0 of the original claim does not hold. -/
theorem confidence_le_point_nine (agent_type task : String)
    (context : Option String) :
    (classify_value agent_type task context).confidence ≤ 0.9 := by
  simp only [classify_value]
  split
  · exact min_le_left _ _
  · split
    · exact min_le_left _ _
    · norm_num

/-- C5 (confirmed): whenever some global complexity phrase occurs in the
combined lowercased text, the classifier recommends the LARGE tier no matter
the role and no matter which other phrases also occur:  every complexity
match turns the reasoning flag on, and the high branch fires on that flag
regardless of the score. -/
theorem reasoning_dominance (agent_type task : String) (context : Option String)
    (h : ∃ p ∈ complexity_indicators,
      containsSubstr (fullText task context) p = true) :
    (classify_value agent_type task context).model_size = ModelSize.LARGE := by
  have hc : 0 < countHits (fullText task context) complexity_indicators :=
    List.countP_pos_iff.mpr h
  have hr : reasoningRequired (normalizeRole agent_type)
      (fullText task context) = true := by
    simp [reasoningRequired, hc]
  simp only [classify_value, hr, or_true, if_true, if_pos]

/-- C5 witness: the second spec scenario text contains the complexity phrase
complex analysis, and the classifier indeed recommends LARGE on it. -/
theorem reasoning_dominance_witness :
    (∃ p ∈ complexity_indicators,
      containsSubstr
        (fullText "Perform complex analysis of market trends and predict movements"
          none) p = true) ∧
    (classify_value "market_analyzer"
      "Perform complex analysis of market trends and predict movements"
      none).model_size = ModelSize.LARGE :=
  ⟨by decide,
   reasoning_dominance "market_analyzer"
     "Perform complex analysis of market trends and predict movements" none
     (by decide)⟩

/-- C7 (confirmed): a role whose normalized form has no entry in the rules
table, with empty task text and absent context, classifies to the LARGE
default with medium complexity, no reasoning, confidence 0.6 — and no error
is possible, `classify_value` being a total function. -/
theorem unknown_role_fallback (role : String)
    (h : roleRules (normalizeRole role) = none) :
    classify_value role "" none =
      { agent_type := normalizeRole role, task_complexity := "medium",
        requires_reasoning := false, model_size := ModelSize.LARGE,
        confidence := 0.6 } := by
  have h1 : countHits (fullText "" none) complexity_indicators = 0 := by decide
  have h2 : countHits (fullText "" none) simple_indicators = 0 := by decide
  have h70 : hits70b (normalizeRole role) (fullText "" none) = 0 := by
    simp [hits70b, h]
  have h7 : hits7b (normalizeRole role) (fullText "" none) = 0 := by
    simp [hits7b, h]
  have hscore : complexityScore (normalizeRole role) (fullText "" none) = 0 := by
    simp [complexityScore, h1, h2, h70, h7]
  have hreason : reasoningRequired (normalizeRole role) (fullText "" none)
      = false := by
    simp [reasoningRequired, h1, h70]
  simp only [classify_value, hscore, hreason, h]
  norm_num

/-- C7 witness: the role nonexistent_role is not in the rules table and
falls back to LARGE, medium, confidence 0.6. -/
theorem unknown_role_fallback_witness :
    roleRules (normalizeRole "nonexistent_role") = none ∧
    classify_value "nonexistent_role" "" none =
      { agent_type := normalizeRole "nonexistent_role",
        task_complexity := "medium", requires_reasoning := false,
        model_size := ModelSize.LARGE, confidence := 0.6 } :=
  ⟨by decide, unknown_role_fallback "nonexistent_role" (by decide)⟩

/-- C10 (confirmed): a classification labelled low can only come from the
`score < -1` branch, so its tier is SMALL, its reasoning flag is off (the
high branch would otherwise have fired), and since the score is at most -2
its confidence `min(0.9, 0.7 + |score|*0.05)` lies in [0.8, 0.9]. -/
theorem low_label_facts (agent_type task : String) (context : Option String)
    (h : (classify_value agent_type task context).task_complexity = "low") :
    (classify_value agent_type task context).model_size = ModelSize.SMALL ∧
    (classify_value agent_type task context).requires_reasoning = false ∧
    (0.8 : ℚ) ≤ (classify_value agent_type task context).confidence ∧
    (classify_value agent_type task context).confidence ≤ 0.9 := by
  simp only [classify_value] at h ⊢
  by_cases hc1 : 1 < complexityScore (normalizeRole agent_type)
      (fullText task context) ∨
    reasoningRequired (normalizeRole agent_type) (fullText task context) = true
  · rw [if_pos hc1] at h
    exact absurd (show ("high" : String) = "low" from h) (by decide)
  · by_cases hc2 : complexityScore (normalizeRole agent_type)
        (fullText task context) < -1
    · rw [if_neg hc1, if_pos hc2] at h ⊢
      have hreason : reasoningRequired (normalizeRole agent_type)
          (fullText task context) = false := by
        rcases Bool.eq_false_or_eq_true
          (reasoningRequired (normalizeRole agent_type) (fullText task context))
          with hb | hb
        · exact absurd (Or.inr hb) hc1
        · exact hb
      have habs : 2 ≤ (complexityScore (normalizeRole agent_type)
          (fullText task context)).natAbs := by omega
      have habsq : (2 : ℚ) ≤
          ((complexityScore (normalizeRole agent_type)
            (fullText task context)).natAbs : ℚ) := by
        exact_mod_cast habs
      refine ⟨rfl, hreason, ?_, min_le_left _ _⟩
      apply le_min
      · norm_num
      · nlinarith [habsq]
    · rw [if_neg hc1, if_neg hc2] at h
      exact absurd (show ("medium" : String) = "low" from h) (by decide)

/-- C10 witness: the first spec scenario is labelled low, and so is SMALL,
non-reasoning, with confidence between 0.8 and 0.9. -/
theorem low_label_facts_witness :
    (classify_value "market_analyzer"
      "Fetch market data and convert to JSON format" none).task_complexity
        = "low" ∧
    ((classify_value "market_analyzer"
      "Fetch market data and convert to JSON format" none).model_size
        = ModelSize.SMALL ∧
     (classify_value "market_analyzer"
      "Fetch market data and convert to JSON format" none).requires_reasoning
        = false ∧
     (0.8 : ℚ) ≤ (classify_value "market_analyzer"
      "Fetch market data and convert to JSON format" none).confidence ∧
     (classify_value "market_analyzer"
      "Fetch market data and convert to JSON format" none).confidence ≤ 0.9) :=
  ⟨by decide,
   low_label_facts "market_analyzer"
     "Fetch market data and convert to JSON format" none (by decide)⟩

/-- C2 (corrected, counterexample): `classify_task` is not free of side
effects — one call on a fresh router raises `total_requests` from 0 to 1
(router.py line 144 executes inside `classify_task`). -/
theorem classify_task_mutates_stats :
    (ModelRouter.classify_task (freshRouter none) "pricer" "Fetch data"
      none).2.usage_stats.total_requests = 1 ∧
    (freshRouter none).usage_stats.total_requests = 0 :=
  ⟨by decide, rfl⟩

/-- C2 (corrected, amended): the classification `classify_task` returns is
the same from any two router states — it does not depend on prior calls —
but the call does update the usage statistics: `total_requests` grows by
one, and depending on the recommended tier either `small_model_usage` grows
by one and 0.7 is added to `token_savings_estimate`, or `large_model_usage`
grows by one.  The credential is untouched. -/
theorem classify_task_value_pure_stats_delta (st st2 : RouterState)
    (agent_type task : String) (context : Option String) :
    (ModelRouter.classify_task st agent_type task context).1
      = (ModelRouter.classify_task st2 agent_type task context).1 ∧
    (ModelRouter.classify_task st agent_type task context).2.groq_key
      = st.groq_key ∧
    (ModelRouter.classify_task st agent_type task context).2.usage_stats.total_requests
      = st.usage_stats.total_requests + 1 ∧
    (ModelRouter.classify_task st agent_type task context).2.usage_stats.small_model_usage
      = st.usage_stats.small_model_usage +
        (if (ModelRouter.classify_task st agent_type task context).1.model_size
            = ModelSize.SMALL then 1 else 0) ∧
    (ModelRouter.classify_task st agent_type task context).2.usage_stats.large_model_usage
      = st.usage_stats.large_model_usage +
        (if (ModelRouter.classify_task st agent_type task context).1.model_size
            = ModelSize.SMALL then 0 else 1) ∧
    (ModelRouter.classify_task st agent_type task context).2.usage_stats.token_savings_estimate
      = st.usage_stats.token_savings_estimate +
        (if (ModelRouter.classify_task st agent_type task context).1.model_size
            = ModelSize.SMALL then (0.7 : ℚ) else 0) := by
  cases hms : (classify_value agent_type task context).model_size <;>
    simp [ModelRouter.classify_task, trackUsage, hms]

/-- C3 (corrected, counterexample): with the credential absent,
`get_model_config` does not fail — it returns an ordinary configuration
whose `api_key` is simply absent.  No `ConfigurationError` (nor any other
failure path) exists in the mapper. -/
theorem get_model_config_absent_key_no_error :
    ModelRouter.get_model_config (freshRouter none)
      (classify_value "pricer" "" none) =
      { model := "groq/llama-3.3-70b-versatile", temperature := 0.3,
        api_key := none } := by
  have h1 : (classify_value "pricer" "" none).model_size = ModelSize.LARGE := by
    decide
  have h2 : (classify_value "pricer" "" none).requires_reasoning = false := by
    decide
  simp [ModelRouter.get_model_config, freshRouter, h1, h2, ModelSize.value]

/-- C3 (corrected, amended): `get_model_config` is a total function that
never fails, whether or not the credential is present: it returns the tier
identifier of the classification, temperature 0.7 or 0.3 by the reasoning
flag, and passes the (possibly absent) stored credential through
unchanged. -/
theorem get_model_config_total (st : RouterState) (cl : TaskClassification) :
    (ModelRouter.get_model_config st cl).api_key = st.groq_key ∧
    (ModelRouter.get_model_config st cl).model = cl.model_size.value ∧
    (ModelRouter.get_model_config st cl).temperature
      = (if cl.requires_reasoning then (0.7 : ℚ) else 0.3) :=
  ⟨rfl, rfl, rfl⟩

/-- Each `trackUsage` step adds one to `total_requests`. -/
theorem trackUsage_total (stats : UsageStats) (m : ModelSize) :
    (trackUsage stats m).total_requests = stats.total_requests + 1 := by
  cases m <;> rfl

/-- Each `trackUsage` step adds one to the sum of the two tier counters. -/
theorem trackUsage_small_add_large (stats : UsageStats) (m : ModelSize) :
    (trackUsage stats m).small_model_usage + (trackUsage stats m).large_model_usage
      = stats.small_model_usage + stats.large_model_usage + 1 := by
  cases m <;> simp [trackUsage] <;> omega

/-- Stats bookkeeping of a `route_request` fold, relative to any start
state. -/
theorem runRoutes_stats (calls : List (String × String × Option String))
    (st : RouterState) :
    (runRoutes st calls).usage_stats.total_requests
      = st.usage_stats.total_requests + calls.length ∧
    (runRoutes st calls).usage_stats.small_model_usage
        + (runRoutes st calls).usage_stats.large_model_usage
      = st.usage_stats.small_model_usage + st.usage_stats.large_model_usage
        + calls.length := by
  induction calls generalizing st with
  | nil => simp [runRoutes]
  | cons c rest ih =>
    obtain ⟨a, t, ctx⟩ := c
    have hstep : (ModelRouter.route_request st a t ctx).2.usage_stats
        = trackUsage st.usage_stats (classify_value a t ctx).model_size := rfl
    obtain ⟨ih1, ih2⟩ := ih (ModelRouter.route_request st a t ctx).2
    rw [hstep] at ih1 ih2
    have h1 := trackUsage_total st.usage_stats
      (classify_value a t ctx).model_size
    have h2 := trackUsage_small_add_large st.usage_stats
      (classify_value a t ctx).model_size
    simp only [runRoutes, List.length_cons]
    omega

/-- C4 (confirmed): after any sequence of N `route_request` calls on a
freshly constructed router, `total_requests` equals
`small_model_usage + large_model_usage` and both equal N. -/
theorem route_request_counter_invariant (key : Option String)
    (calls : List (String × String × Option String)) :
    (runRoutes (freshRouter key) calls).usage_stats.total_requests
      = (runRoutes (freshRouter key) calls).usage_stats.small_model_usage
        + (runRoutes (freshRouter key) calls).usage_stats.large_model_usage ∧
    (runRoutes (freshRouter key) calls).usage_stats.total_requests
      = calls.length := by
  obtain ⟨h1, h2⟩ := runRoutes_stats calls (freshRouter key)
  have hz1 : (freshRouter key).usage_stats.total_requests = 0 := rfl
  have hz2 : (freshRouter key).usage_stats.small_model_usage = 0 := rfl
  have hz3 : (freshRouter key).usage_stats.large_model_usage = 0 := rfl
  omega

/-- C8 (confirmed): running the four concrete spec scenarios once each via
`route_request` on a fresh router classifies them SMALL, LARGE, LARGE,
SMALL respectively, and the usage report then shows 4 total requests,
2 small, 2 large, and a small-model percentage of 50.0. -/
theorem spec_scenarios :
    scenarioRoute1.1.2.model_size = ModelSize.SMALL ∧
    scenarioRoute2.1.2.model_size = ModelSize.LARGE ∧
    scenarioRoute3.1.2.model_size = ModelSize.LARGE ∧
    scenarioRoute4.1.2.model_size = ModelSize.SMALL ∧
    (ModelRouter.get_usage_stats scenarioRoute4.2).total_requests = 4 ∧
    (ModelRouter.get_usage_stats scenarioRoute4.2).small_model_usage = 2 ∧
    (ModelRouter.get_usage_stats scenarioRoute4.2).large_model_usage = 2 ∧
    (ModelRouter.get_usage_stats scenarioRoute4.2).small_model_percentage
      = 50 := by
  have hm1 : (classify_value "market_analyzer"
      "Fetch market data and convert to JSON format" none).model_size
      = ModelSize.SMALL := by decide
  have hm2 : (classify_value "market_analyzer"
      "Perform complex analysis of market trends and predict movements"
      none).model_size = ModelSize.LARGE := by decide
  have hm3 : (classify_value "pricer"
      "Calculate arbitrage opportunity between markets with profit analysis"
      none).model_size = ModelSize.LARGE := by decide
  have hm4 : (classify_value "executive"
      "Coordinate task delegation between agents" none).model_size
      = ModelSize.SMALL := by decide
  have hfl : ModelRouter.round1 (50 : ℚ) = 50 := by
    unfold ModelRouter.round1
    rw [show (50:ℚ)*10 + 1/2 = 500 + 1/2 by norm_num]
    rw [show ⌊(500:ℚ) + 1/2⌋ = 500 by
      rw [Int.floor_eq_iff]
      norm_num]
    norm_num
  simp only [scenarioRoute1, scenarioRoute2, scenarioRoute3, scenarioRoute4,
    ModelRouter.route_request, ModelRouter.classify_task,
    hm1, hm2, hm3, hm4, trackUsage, freshRouter,
    ModelRouter.get_usage_stats]
  norm_num [hfl]

/-- Looking a key up in an extended association list still finds the value
bound on the left. -/
theorem lookup_append_of_some {β : Type} (k : String) (v : β)
    (l l2 : List (String × β)) (h : l.lookup k = some v) :
    (l ++ l2).lookup k = some v := by
  induction l with
  | nil => simp [List.lookup] at h
  | cons p rest ih =>
    obtain ⟨a, b⟩ := p
    rw [List.lookup_cons] at h
    rw [List.cons_append, List.lookup_cons]
    cases hk : (k == a) with
    | true => rw [hk] at h; exact h
    | false => rw [hk] at h; exact ih h

/-- Appending a binding for a previously unbound key makes lookup find it. -/
theorem lookup_append_singleton_of_none {β : Type} (k : String) (v : β)
    (l : List (String × β)) (h : l.lookup k = none) :
    (l ++ [(k, v)]).lookup k = some v := by
  induction l with
  | nil => simp [List.lookup]
  | cons p rest ih =>
    obtain ⟨a, b⟩ := p
    rw [List.lookup_cons] at h
    rw [List.cons_append, List.lookup_cons]
    cases hk : (k == a) with
    | true => rw [hk] at h; exact Option.noConfusion h
    | false => rw [hk] at h; exact ih h

/-- A key with no binding does not occur among the keys of the list. -/
theorem lookup_none_not_mem_keys {β : Type} (k : String)
    (l : List (String × β)) (h : l.lookup k = none) :
    k ∉ l.map Prod.fst := by
  induction l with
  | nil => simp
  | cons p rest ih =>
    obtain ⟨a, b⟩ := p
    rw [List.lookup_cons] at h
    cases hk : (k == a) with
    | true => rw [hk] at h; exact Option.noConfusion h
    | false =>
      rw [hk] at h
      have hne : k ≠ a := by
        intro he
        rw [he] at hk
        simp at hk
      intro hmem
      rw [List.map_cons, List.mem_cons] at hmem
      rcases hmem with he | hm
      · exact hne he
      · exact ih h hm

/-- Unfolding of `get_llm_for_agent` in terms of `callKey`: the cache key
computed inside the body (crewai_router.py line 32) is definitionally
`callKey` of the arguments, the handle fields are those of the routed
configuration, and the inner router advances by `route_request`. -/
theorem get_llm_for_agent_eq (st : CrewState) (a t : String)
    (c : Option String) :
    CrewAIModelRouter.get_llm_for_agent st a t c =
      (match st.llm_cache.lookup (callKey a t c) with
       | some llm =>
           (llm, { st with router := (ModelRouter.route_request st.router a t c).2 })
       | none =>
         ({ constructed_at := st.next_llm_id,
            model := (classify_value a t c).model_size.value,
            temperature :=
              if (classify_value a t c).requires_reasoning then (0.7:ℚ) else 0.3,
            api_key := st.router.groq_key },
          { router := (ModelRouter.route_request st.router a t c).2,
            llm_cache := st.llm_cache ++
              [(callKey a t c,
                { constructed_at := st.next_llm_id,
                  model := (classify_value a t c).model_size.value,
                  temperature :=
                    if (classify_value a t c).requires_reasoning then (0.7:ℚ)
                    else 0.3,
                  api_key := st.router.groq_key })],
            next_llm_id := st.next_llm_id + 1 })) := rfl

/-- A call that hits the cache returns the cached handle and leaves the
cache and the allocation counter unchanged. -/
theorem get_llm_hit (st : CrewState) (a t : String) (c : Option String)
    (v : LLM) (h : st.llm_cache.lookup (callKey a t c) = some v) :
    (CrewAIModelRouter.get_llm_for_agent st a t c).1 = v ∧
    (CrewAIModelRouter.get_llm_for_agent st a t c).2.llm_cache = st.llm_cache ∧
    (CrewAIModelRouter.get_llm_for_agent st a t c).2.next_llm_id
      = st.next_llm_id := by
  rw [get_llm_for_agent_eq, h]
  exact ⟨rfl, rfl, rfl⟩

/-- After any call, hit or miss, the cache binds the key of that call to
exactly the handle the call returned. -/
theorem get_llm_result_cached (st : CrewState) (a t : String)
    (c : Option String) :
    (CrewAIModelRouter.get_llm_for_agent st a t c).2.llm_cache.lookup
        (callKey a t c)
      = some (CrewAIModelRouter.get_llm_for_agent st a t c).1 := by
  rw [get_llm_for_agent_eq]
  cases h : st.llm_cache.lookup (callKey a t c) with
  | some v => exact h
  | none => exact lookup_append_singleton_of_none _ _ _ h

/-- Existing cache bindings survive any further call: the cache only ever
grows with fresh keys and is never evicted or overwritten. -/
theorem get_llm_preserves_lookup (st : CrewState) (a t : String)
    (c : Option String) (k : String) (v : LLM)
    (h : st.llm_cache.lookup k = some v) :
    (CrewAIModelRouter.get_llm_for_agent st a t c).2.llm_cache.lookup k
      = some v := by
  rw [get_llm_for_agent_eq]
  cases hl : st.llm_cache.lookup (callKey a t c) with
  | some w => exact h
  | none => exact lookup_append_of_some _ _ _ _ h

/-- Existing cache bindings survive any sequence of further calls. -/
theorem runCrew_preserves_lookup
    (calls : List (String × String × Option String)) (st : CrewState)
    (k : String) (v : LLM) (h : st.llm_cache.lookup k = some v) :
    (runCrew st calls).llm_cache.lookup k = some v := by
  induction calls generalizing st with
  | nil => exact h
  | cons c rest ih =>
    obtain ⟨a, t, ctx⟩ := c
    exact ih _ (get_llm_preserves_lookup st a t ctx k v h)

/-- A call that misses the cache constructs a handle carrying the next
allocation index, advances the counter, and appends the new binding. -/
theorem get_llm_miss (st : CrewState) (a t : String) (c : Option String)
    (h : st.llm_cache.lookup (callKey a t c) = none) :
    (CrewAIModelRouter.get_llm_for_agent st a t c).1.constructed_at
      = st.next_llm_id ∧
    (CrewAIModelRouter.get_llm_for_agent st a t c).2.next_llm_id
      = st.next_llm_id + 1 ∧
    (CrewAIModelRouter.get_llm_for_agent st a t c).2.llm_cache
      = st.llm_cache ++
        [(callKey a t c, (CrewAIModelRouter.get_llm_for_agent st a t c).1)] := by
  rw [get_llm_for_agent_eq, h]
  exact ⟨rfl, rfl, rfl⟩

/-- Python renders the float 0.7 as shown in the cache key. -/
theorem floatRepr_seven : floatRepr 0.7 = "0.7" := by
  simp [floatRepr]

/-- Python renders the float 0.3 as shown in the cache key. -/
theorem floatRepr_three : floatRepr 0.3 = "0.3" := by
  norm_num [floatRepr]

/-- Every cache key a call can compute is one of the four allowed keys. -/
theorem callKey_mem_allowedKeys (a t : String) (c : Option String) :
    callKey a t c ∈ allowedKeys := by
  unfold callKey
  cases h1 : (classify_value a t c).model_size <;>
    cases h2 : (classify_value a t c).requires_reasoning <;>
      simp only [h1, h2, if_true, if_false, Bool.false_eq_true, ite_false,
        ite_true, floatRepr_seven, floatRepr_three, allowedKeys,
        ModelSize.value] <;> decide

/-- One adapter call preserves the cache invariant: keys distinct and all
drawn from the four allowed keys. -/
theorem get_llm_cache_invariant (st : CrewState) (a t : String)
    (c : Option String) (hnd : ((st.llm_cache.map Prod.fst).Nodup))
    (hsub : ∀ x ∈ st.llm_cache.map Prod.fst, x ∈ allowedKeys) :
    ((CrewAIModelRouter.get_llm_for_agent st a t c).2.llm_cache.map
        Prod.fst).Nodup ∧
    (∀ x ∈ (CrewAIModelRouter.get_llm_for_agent st a t c).2.llm_cache.map
        Prod.fst, x ∈ allowedKeys) := by
  rw [get_llm_for_agent_eq]
  cases hl : st.llm_cache.lookup (callKey a t c) with
  | some v => exact ⟨hnd, hsub⟩
  | none =>
    constructor
    · rw [List.map_append, List.nodup_append]
      refine ⟨hnd, by simp, ?_⟩
      intro x hx hx2
      simp at hx2
      subst hx2
      exact lookup_none_not_mem_keys _ _ hl hx
    · intro x hx
      rw [List.map_append, List.mem_append] at hx
      rcases hx with hx | hx
      · exact hsub x hx
      · simp at hx
        subst hx
        exact callKey_mem_allowedKeys a t c

/-- Any sequence of adapter calls preserves the cache invariant. -/
theorem runCrew_cache_invariant
    (calls : List (String × String × Option String)) (st : CrewState)
    (hnd : ((st.llm_cache.map Prod.fst).Nodup))
    (hsub : ∀ x ∈ st.llm_cache.map Prod.fst, x ∈ allowedKeys) :
    ((runCrew st calls).llm_cache.map Prod.fst).Nodup ∧
    (∀ x ∈ (runCrew st calls).llm_cache.map Prod.fst, x ∈ allowedKeys) := by
  induction calls generalizing st with
  | nil => exact ⟨hnd, hsub⟩
  | cons cc rest ih =>
    obtain ⟨a, t, ctx⟩ := cc
    obtain ⟨h1, h2⟩ := get_llm_cache_invariant st a t ctx hnd hsub
    exact ih _ h1 h2

/-- C6 (confirmed): when a call constructs and stores a handle — its key
misses the cache — then any later call on the same adapter resolving to the
same `(tier, temperature)` key, with arbitrary other calls in between,
returns that very handle, and constructs no new one: the cache and the
allocation counter are left untouched by the second call. -/
theorem cache_reuse (st : CrewState) (a1 t1 : String) (c1 : Option String)
    (mids : List (String × String × Option String))
    (a2 t2 : String) (c2 : Option String)
    (hkey : callKey a2 t2 c2 = callKey a1 t1 c1)
    (hmiss : st.llm_cache.lookup (callKey a1 t1 c1) = none) :
    (CrewAIModelRouter.get_llm_for_agent st a1 t1 c1).1.constructed_at
      = st.next_llm_id ∧
    (CrewAIModelRouter.get_llm_for_agent
        (runCrew (CrewAIModelRouter.get_llm_for_agent st a1 t1 c1).2 mids)
        a2 t2 c2).1
      = (CrewAIModelRouter.get_llm_for_agent st a1 t1 c1).1 ∧
    (CrewAIModelRouter.get_llm_for_agent
        (runCrew (CrewAIModelRouter.get_llm_for_agent st a1 t1 c1).2 mids)
        a2 t2 c2).2.llm_cache
      = (runCrew (CrewAIModelRouter.get_llm_for_agent st a1 t1 c1).2
          mids).llm_cache ∧
    (CrewAIModelRouter.get_llm_for_agent
        (runCrew (CrewAIModelRouter.get_llm_for_agent st a1 t1 c1).2 mids)
        a2 t2 c2).2.next_llm_id
      = (runCrew (CrewAIModelRouter.get_llm_for_agent st a1 t1 c1).2
          mids).next_llm_id := by
  have hstored := get_llm_result_cached st a1 t1 c1
  have hkept := runCrew_preserves_lookup mids _ _ _ hstored
  have hkept2 : (runCrew (CrewAIModelRouter.get_llm_for_agent st a1 t1 c1).2
      mids).llm_cache.lookup (callKey a2 t2 c2)
      = some (CrewAIModelRouter.get_llm_for_agent st a1 t1 c1).1 := by
    rw [hkey]
    exact hkept
  obtain ⟨hh1, hh2, hh3⟩ := get_llm_hit _ a2 t2 c2 _ hkept2
  exact ⟨(get_llm_miss st a1 t1 c1 hmiss).1, hh1, hh2, hh3⟩

/-- C6 witness: on a fresh adapter, asking twice for the executive
coordination scenario returns the handle constructed by the first call. -/
theorem cache_reuse_witness :
    (CrewAIModelRouter.get_llm_for_agent (freshCrew none) "executive"
      "Coordinate task delegation between agents" none).1.constructed_at
      = (freshCrew none).next_llm_id ∧
    (CrewAIModelRouter.get_llm_for_agent
        (runCrew (CrewAIModelRouter.get_llm_for_agent (freshCrew none)
          "executive" "Coordinate task delegation between agents" none).2 [])
        "executive" "Coordinate task delegation between agents" none).1
      = (CrewAIModelRouter.get_llm_for_agent (freshCrew none) "executive"
          "Coordinate task delegation between agents" none).1 ∧
    (CrewAIModelRouter.get_llm_for_agent
        (runCrew (CrewAIModelRouter.get_llm_for_agent (freshCrew none)
          "executive" "Coordinate task delegation between agents" none).2 [])
        "executive" "Coordinate task delegation between agents" none).2.llm_cache
      = (runCrew (CrewAIModelRouter.get_llm_for_agent (freshCrew none)
          "executive" "Coordinate task delegation between agents" none).2
          []).llm_cache ∧
    (CrewAIModelRouter.get_llm_for_agent
        (runCrew (CrewAIModelRouter.get_llm_for_agent (freshCrew none)
          "executive" "Coordinate task delegation between agents" none).2 [])
        "executive" "Coordinate task delegation between agents" none).2.next_llm_id
      = (runCrew (CrewAIModelRouter.get_llm_for_agent (freshCrew none)
          "executive" "Coordinate task delegation between agents" none).2
          []).next_llm_id :=
  cache_reuse (freshCrew none) "executive"
    "Coordinate task delegation between agents" none [] "executive"
    "Coordinate task delegation between agents" none rfl rfl

/-- C9 (confirmed): after any sequence of adapter calls on a fresh adapter,
the instance cache holds at most four entries, and every key is one of the
two tier identifiers combined with temperature 0.3 or 0.7. -/
theorem cache_bounded (key : Option String)
    (calls : List (String × String × Option String)) :
    (runCrew (freshCrew key) calls).llm_cache.length ≤ 4 ∧
    (∀ kv ∈ (runCrew (freshCrew key) calls).llm_cache,
      kv.1 ∈ allowedKeys) := by
  obtain ⟨hnd, hsub⟩ := runCrew_cache_invariant calls (freshCrew key)
    (by simp [freshCrew]) (by simp [freshCrew])
  constructor
  · have hlen : (runCrew (freshCrew key) calls).llm_cache.length
        = ((runCrew (freshCrew key) calls).llm_cache.map Prod.fst).length := by
      simp
    rw [hlen]
    have hcard := List.toFinset_card_of_nodup hnd
    have hsubfin : ((runCrew (freshCrew key) calls).llm_cache.map
        Prod.fst).toFinset ⊆ allowedKeys.toFinset := by
      intro x hx
      rw [List.mem_toFinset] at hx ⊢
      exact hsub x hx
    have h4 : allowedKeys.toFinset.card ≤ 4 := by
      have hlekeys := List.toFinset_card_le allowedKeys
      simpa [allowedKeys] using hlekeys
    calc ((runCrew (freshCrew key) calls).llm_cache.map Prod.fst).length
        = ((runCrew (freshCrew key) calls).llm_cache.map
            Prod.fst).toFinset.card := hcard.symm
      _ ≤ allowedKeys.toFinset.card := Finset.card_le_card hsubfin
      _ ≤ 4 := h4
  · intro kv hkv
    exact hsub kv.1 (List.mem_map.mpr ⟨kv, hkv, rfl⟩)

end HyperFill
